import Mathlib

/-!
Verification development for the Air-Pollution-Forecasting repository.

The repository's core pieces are modelled here as a shallow embedding:

* `get_air_quality_index` — the breakpoint-table AQI calculator of
  `backend/forecaster.py` (`AirPollutionForecaster.get_air_quality_index`);
* `calculate_aqi_from_pm25` and `combine_data_sources` /
  `fetch_combined_data` — the source reconciler of
  `backend/real_data_fetcher.py` (`RealAirQualityFetcher`);
* `generate_current_conditions` and the request handlers of
  `backend/app.py`.

Concentrations and AQI values are modelled as rationals (the Python code
uses floats but performs only field arithmetic on decimal constants).
Python dictionaries whose keys may be absent are modelled with `Option`;
a dict entry that may be present-with-`None` is `Option (Option ℚ)`
(outer `none` = key absent, `some none` = key present holding `None`).
`random.uniform` draws are passed in as explicit parameters.
-/

/-- The pollutant names appearing in the repository's data model. -/
inductive Pollutant
  | PM25
  | PM10
  | NO2
  | SO2
  | CO
  | O3
  deriving DecidableEq, Repr

/-- Breakpoint table of `AirPollutionForecaster.get_air_quality_index`
(forecaster.py lines 383-387).  Each entry is
`(bp_lo, bp_hi, aqi_lo, aqi_hi)`.  Pollutants absent from the Python dict
(`SO2`, `CO`, `O3`) get the empty list: the code's
`if pollutant in aqi_breakpoints` guard skips them, which is the same as
scanning no brackets. -/
def aqi_breakpoints : Pollutant → List (ℚ × ℚ × ℚ × ℚ)
  | .PM25 => [(0, 30, 0, 50), (30, 60, 51, 100), (60, 90, 101, 200),
              (90, 120, 201, 300), (120, 250, 301, 400)]
  | .PM10 => [(0, 50, 0, 50), (50, 100, 51, 100), (100, 250, 101, 200),
              (250, 350, 201, 300), (350, 430, 301, 400)]
  | .NO2  => [(0, 40, 0, 50), (40, 80, 51, 100), (80, 180, 101, 200),
              (180, 280, 201, 300), (280, 400, 301, 400)]
  | _ => []

/-- Inner loop of `get_air_quality_index` (forecaster.py lines 394-400):
scan the brackets in order, and on the first bracket with
`bp_lo <= level <= bp_hi` (Python's chained comparison, i.e.
`bp_lo <= level and level <= bp_hi`) return
`((aqi_hi - aqi_lo) / (bp_hi - bp_lo)) * (level - bp_lo) + aqi_lo`
(the `break` makes it first-match).  `none` when no bracket contains the
level. -/
def subIndex : List (ℚ × ℚ × ℚ × ℚ) → ℚ → Option ℚ
  | [], _ => none
  | (bp_lo, bp_hi, aqi_lo, aqi_hi) :: rest, level =>
      if bp_lo ≤ level then
        if level ≤ bp_hi then
          some (((aqi_hi - aqi_lo) / (bp_hi - bp_lo)) * (level - bp_lo) + aqi_lo)
        else subIndex rest level
      else subIndex rest level

/-- The sub-index of one `(pollutant, level)` pair under the forecaster's
breakpoint table. -/
def subOf (pl : Pollutant × ℚ) : Option ℚ :=
  subIndex (aqi_breakpoints pl.1) pl.2

/-- Modelled from the spec's formula text
`aqi = aqi_lo + (aqi_hi - aqi_lo) * (value - bp_lo) / (bp_hi - bp_lo)`:
the same first-match bracket scan with the spec's arrangement of the
interpolation formula.  Used to state refinement of the code against the
spec's words. -/
def specSubIndex : List (ℚ × ℚ × ℚ × ℚ) → ℚ → Option ℚ
  | [], _ => none
  | (bp_lo, bp_hi, aqi_lo, aqi_hi) :: rest, value =>
      if bp_lo ≤ value ∧ value ≤ bp_hi then
        some (aqi_lo + (aqi_hi - aqi_lo) * (value - bp_lo) / (bp_hi - bp_lo))
      else specSubIndex rest value

/-- Spec-side sub-index of one `(pollutant, level)` pair. -/
def specSubOf (pl : Pollutant × ℚ) : Option ℚ :=
  specSubIndex (aqi_breakpoints pl.1) pl.2

/-- One iteration of the outer loop of `get_air_quality_index`
(forecaster.py lines 392-400): state is `(max_aqi, dominant_pollutant)`,
updated only when the pollutant has a sub-index strictly above the running
maximum (`if aqi > max_aqi`). -/
def aqiStep (acc : ℚ × Option Pollutant) (pl : Pollutant × ℚ) :
    ℚ × Option Pollutant :=
  match subOf pl with
  | none => acc
  | some a => if acc.1 < a then (a, some pl.1) else acc

/-- The `(max_aqi, dominant_pollutant)` state after the outer loop of
`get_air_quality_index`, starting from `max_aqi = 0`,
`dominant_pollutant = None`.  A Python dict iterates in insertion order,
so `pollutant_levels.items()` is modelled as a list of pairs. -/
def getAQIState (levels : List (Pollutant × ℚ)) : ℚ × Option Pollutant :=
  levels.foldl aqiStep (0, none)

/-- Python's `round` on a rational: nearest integer, ties to even
(banker's rounding). -/
def pyRound (q : ℚ) : ℤ :=
  if q - ⌊q⌋ < 1/2 then ⌊q⌋
  else if 1/2 < q - ⌊q⌋ then ⌊q⌋ + 1
  else if 2 ∣ ⌊q⌋ then ⌊q⌋ else ⌊q⌋ + 1

/-- Category chain of `get_air_quality_index` (forecaster.py lines
403-417), applied to the unrounded `max_aqi`. -/
def forecasterCategory (max_aqi : ℚ) : String :=
  if max_aqi ≤ 50 then "Good"
  else if max_aqi ≤ 100 then "Satisfactory"
  else if max_aqi ≤ 200 then "Moderate"
  else if max_aqi ≤ 300 then "Poor"
  else "Very Poor"

/-- Colour chain of `get_air_quality_index` (forecaster.py lines 403-417). -/
def forecasterColor (max_aqi : ℚ) : String :=
  if max_aqi ≤ 50 then "green"
  else if max_aqi ≤ 100 then "yellow"
  else if max_aqi ≤ 200 then "orange"
  else if max_aqi ≤ 300 then "red"
  else "maroon"

/-- Return value of `get_air_quality_index` (forecaster.py lines 419-424). -/
structure AQIOutput where
  aqi : ℤ
  category : String
  color : String
  dominant_pollutant : Option Pollutant
  deriving DecidableEq, Repr

/-- `AirPollutionForecaster.get_air_quality_index` (forecaster.py lines
380-424): fold the breakpoint sub-indices to a maximum and dominant
pollutant, then round the maximum and attach category and colour. -/
def get_air_quality_index (levels : List (Pollutant × ℚ)) : AQIOutput :=
  let s := getAQIState levels
  { aqi := pyRound s.1
    category := forecasterCategory s.1
    color := forecasterColor s.1
    dominant_pollutant := s.2 }

/-- The maximum sub-index across the pollutants of a reading, absent
pollutants contributing nothing (spec section 4.1's aggregation rule,
stated with the spec's formula). -/
def maxSubIndex (levels : List (Pollutant × ℚ)) : ℚ :=
  (levels.filterMap specSubOf).foldl max 0

/-- The first pollutant attaining the maximum sub-index, provided that
maximum is strictly positive; `none` otherwise. -/
def firstMaxPollutant (levels : List (Pollutant × ℚ)) : Option Pollutant :=
  if 0 < maxSubIndex levels then
    (levels.find? fun pl => decide (specSubOf pl = some (maxSubIndex levels))).map Prod.fst
  else none

/-- `RealAirQualityFetcher.calculate_aqi_from_pm25`
(real_data_fetcher.py lines 255-268): US EPA piecewise-linear PM2.5 → AQI
conversion. -/
def calculate_aqi_from_pm25 (pm25 : ℚ) : ℚ :=
  if pm25 ≤ 12 then pm25 * 50 / 12
  else if pm25 ≤ 35.4 then 50 + (pm25 - 12) * 50 / (35.4 - 12)
  else if pm25 ≤ 55.4 then 100 + (pm25 - 35.4) * 50 / (55.4 - 35.4)
  else if pm25 ≤ 150.4 then 150 + (pm25 - 55.4) * 50 / (150.4 - 55.4)
  else if pm25 ≤ 250.4 then 200 + (pm25 - 150.4) * 100 / (250.4 - 150.4)
  else 300 + (pm25 - 250.4) * 100 / (350.4 - 250.4)

/-- The fields of an OpenWeather payload dict that
`combine_data_sources` reads with `.get` (real_data_fetcher.py lines
203-211).  Each is `Option`: `combine_data_sources` is written against an
arbitrary dict, so a key may be absent (`source_data.get(k)` then yields
`None`); `fetch_openweather_pollution` itself happens to default every
component to `0`, but the reconciler does not rely on that. -/
structure OpenWeatherPayload where
  pm2_5 : Option ℚ
  pm10 : Option ℚ
  no2 : Option ℚ
  so2 : Option ℚ
  co : Option ℚ
  o3 : Option ℚ
  deriving DecidableEq, Repr

/-- The fields of an AirVisual payload read by `combine_data_sources`
(real_data_fetcher.py lines 213-220).  `fetch_airvisual_data` builds
every one of these keys by direct subscripting of the provider response
(lines 109-120), so a present AirVisual payload always carries them; they
are therefore modelled as required. -/
structure AirVisualPayload where
  aqi_us : ℚ
  temperature : ℚ
  humidity : ℚ
  pressure : ℚ
  wind_speed : ℚ
  deriving DecidableEq, Repr

/-- The fields of a WAQI payload read by `combine_data_sources`
(real_data_fetcher.py lines 222-229).  `fetch_waqi_data` always sets
`aqi` (direct subscript, line 148) but reads `pm25`/`pm10` through
`iaqi.get(...).get('v')` (lines 149-150), which can be `None`. -/
structure WAQIPayload where
  aqi : ℚ
  pm25 : Option ℚ
  pm10 : Option ℚ
  deriving DecidableEq, Repr

/-- The combined reading built by `combine_data_sources`.  Pollutant
fields are `Option (Option ℚ)`: the outer layer records whether the dict
key has been set at all (the code tests `'PM2.5' not in combined`), the
inner layer is the stored value, which can itself be Python `None`.  The
`AQI` key, when set, always holds a number (it comes from
`aqi_us`/`aqi`/`calculate_aqi_from_pm25`), so it is `Option ℚ`. -/
structure CombinedReading where
  PM25 : Option (Option ℚ) := none
  PM10 : Option (Option ℚ) := none
  NO2 : Option (Option ℚ) := none
  SO2 : Option (Option ℚ) := none
  CO : Option (Option ℚ) := none
  O3 : Option (Option ℚ) := none
  AQI : Option ℚ := none
  temperature : Option ℚ := none
  humidity : Option ℚ := none
  pressure : Option ℚ := none
  wind_speed : Option ℚ := none
  category : String := ""
  color : String := ""
  deriving DecidableEq, Repr

/-- Python truthiness of `combined.get('PM2.5')` (real_data_fetcher.py
line 232): the key must be present, its value must not be `None`, and not
`0` (both `None` and `0.0` are falsy). -/
def pm25Truthy : Option (Option ℚ) → Bool
  | some (some v) => v ≠ 0
  | _ => false

/-- The numeric value behind a present, non-`None` PM2.5 entry; the
fallback `0` is never reached where this is used. -/
def pm25Value : Option (Option ℚ) → ℚ
  | some (some v) => v
  | _ => 0

/-- Category chain of `combine_data_sources` (real_data_fetcher.py lines
236-251). -/
def fetcherCategory (aqi : ℚ) : String :=
  if aqi ≤ 50 then "Good"
  else if aqi ≤ 100 then "Satisfactory"
  else if aqi ≤ 200 then "Moderate"
  else if aqi ≤ 300 then "Poor"
  else "Very Poor"

/-- Colour chain of `combine_data_sources` (real_data_fetcher.py lines
236-251). -/
def fetcherColor (aqi : ℚ) : String :=
  if aqi ≤ 50 then "#00e400"
  else if aqi ≤ 100 then "#ffff00"
  else if aqi ≤ 200 then "#ff7e00"
  else if aqi ≤ 300 then "#ff0000"
  else "#8f3f97"

/-- `RealAirQualityFetcher.combine_data_sources` (real_data_fetcher.py
lines 192-253).  The `data_sources` dict is built by
`fetch_combined_data` in the order openweather, airvisual, waqi, so its
insertion-order iteration visits the present payloads in exactly that
order.  OpenWeather overwrites the six pollutant keys, AirVisual
overwrites `AQI` and the weather keys, WAQI fills `PM2.5`/`PM10`/`AQI`
only when the key is still absent; a still-absent `AQI` is derived from a
truthy `PM2.5`; finally `combined.get('AQI', 0)` drives the category and
colour. -/
def combine_data_sources (ow : Option OpenWeatherPayload)
    (av : Option AirVisualPayload) (wq : Option WAQIPayload) :
    CombinedReading :=
  let c : CombinedReading := {}
  let c := match ow with
    | none => c
    | some o =>
        { c with PM25 := some o.pm2_5, PM10 := some o.pm10,
                 NO2 := some o.no2, SO2 := some o.so2,
                 CO := some o.co, O3 := some o.o3 }
  let c := match av with
    | none => c
    | some a =>
        { c with AQI := some a.aqi_us, temperature := some a.temperature,
                 humidity := some a.humidity, pressure := some a.pressure,
                 wind_speed := some a.wind_speed }
  let c := match wq with
    | none => c
    | some w =>
        let c := if c.PM25 = none then { c with PM25 := some w.pm25 } else c
        let c := if c.PM10 = none then { c with PM10 := some w.pm10 } else c
        if c.AQI = none then { c with AQI := some w.aqi } else c
  let c := if c.AQI = none ∧ pm25Truthy c.PM25 then
      { c with AQI := some (calculate_aqi_from_pm25 (pm25Value c.PM25)) }
    else c
  let a := c.AQI.getD 0
  { c with category := fetcherCategory a, color := fetcherColor a }

/-- `RealAirQualityFetcher.fetch_combined_data` (real_data_fetcher.py
lines 167-190), as a function of the three per-provider fetch results
(`None` = unreachable/malformed provider, swallowed by the fetchers'
`try/except`): combine when at least one source answered, else return
`None`. -/
def fetch_combined_data (ow : Option OpenWeatherPayload)
    (av : Option AirVisualPayload) (wq : Option WAQIPayload) :
    Option CombinedReading :=
  if ow.isSome || av.isSome || wq.isSome then
    some (combine_data_sources ow av wq)
  else none

/-- The `base_pollution` dict of `generate_current_conditions`
(app.py lines 287-290). -/
def base_pollution (city : String) : Option ℚ :=
  if city = "Mumbai" then some 80
  else if city = "Delhi" then some 150
  else if city = "Bangalore" then some 60
  else if city = "Chennai" then some 70
  else if city = "Kolkata" then some 100
  else if city = "Hyderabad" then some 75
  else none

/-- The cities the service knows a baseline for (the keys of
`base_pollution`, also the keys of `RealAirQualityFetcher.city_coords`
and of the `/api/cities` list). -/
def supportedCities : List String :=
  ["Mumbai", "Delhi", "Bangalore", "Chennai", "Kolkata", "Hyderabad"]

/-- Rush-hour factor of `generate_current_conditions` (app.py line 296). -/
def rush_hour_effect (hour : ℕ) : ℚ :=
  if hour = 7 ∨ hour = 8 ∨ hour = 9 ∨ hour = 18 ∨ hour = 19 ∨ hour = 20
  then 1.3 else 1

/-- Python `round(x, 1)` on a rational. -/
def round1 (q : ℚ) : ℚ := (pyRound (q * 10) : ℚ) / 10

/-- Python `round(x, 2)` on a rational. -/
def round2 (q : ℚ) : ℚ := (pyRound (q * 100) : ℚ) / 100

/-- Python `round(x, 0)` on a rational. -/
def round0 (q : ℚ) : ℚ := (pyRound q : ℚ)

/-- The `random.uniform` draws consumed by one call of
`generate_current_conditions` (app.py lines 299-304 and 330-333), passed
in explicitly. -/
structure RandomDraws where
  r_pm25 : ℚ
  r_pm10_mul : ℚ
  r_pm10_add : ℚ
  r_no2 : ℚ
  r_so2 : ℚ
  r_co : ℚ
  r_o3 : ℚ
  r_temp : ℚ
  r_hum : ℚ
  r_wind : ℚ
  r_press : ℚ
  deriving DecidableEq, Repr

/-- The record returned by `generate_current_conditions`
(app.py lines 320-335). -/
structure Conditions where
  PM25 : ℚ
  PM10 : ℚ
  NO2 : ℚ
  SO2 : ℚ
  CO : ℚ
  O3 : ℚ
  AQI : ℤ
  category : String
  color : String
  temperature : ℚ
  humidity : ℚ
  wind_speed : ℚ
  pressure : ℚ
  deriving DecidableEq, Repr

/-- Category chain of `generate_current_conditions` (app.py lines
309-318). -/
def appCategory (aqi : ℚ) : String :=
  if aqi ≤ 50 then "Good"
  else if aqi ≤ 100 then "Satisfactory"
  else if aqi ≤ 200 then "Moderate"
  else if aqi ≤ 300 then "Poor"
  else "Very Poor"

/-- Colour chain of `generate_current_conditions` (app.py lines
309-318). -/
def appColor (aqi : ℚ) : String :=
  if aqi ≤ 50 then "#00e400"
  else if aqi ≤ 100 then "#ffff00"
  else if aqi ≤ 200 then "#ff7e00"
  else if aqi ≤ 300 then "#ff0000"
  else "#8f3f97"

/-- `generate_current_conditions` (app.py lines 285-335): synthetic
conditions from the city's base pollution — defaulting to `75` for a city
outside `base_pollution` — a rush-hour factor and the given random
draws. -/
def generate_current_conditions (city : String) (hour : ℕ)
    (r : RandomDraws) : Conditions :=
  let base := (base_pollution city).getD 75
  let rush := rush_hour_effect hour
  let pm25 := max 10 (base * rush + r.r_pm25)
  let pm10 := pm25 * r.r_pm10_mul + r.r_pm10_add
  let no2 := base * 0.4 * rush + r.r_no2
  let so2 := base * 0.2 + r.r_so2
  let co := base * 0.08 + r.r_co
  let o3 := 60 + r.r_o3
  let aqi := max (pm25 * 2.2) (max (pm10 * 1.1) (no2 * 1.8))
  { PM25 := round1 pm25
    PM10 := round1 pm10
    NO2 := round1 no2
    SO2 := round1 so2
    CO := round2 co
    O3 := round1 o3
    AQI := pyRound aqi
    category := appCategory aqi
    color := appColor aqi
    temperature := round1 r.r_temp
    humidity := round0 r.r_hum
    wind_speed := round1 r.r_wind
    pressure := round1 r.r_press }

/-- An HTTP response of the service, reduced to the parts the claims are
about: the status code, the `success` flag, and the payload fields the
individual handlers set. -/
structure Response where
  status : ℕ
  success : Bool
  error : Option String := none
  city : Option String := none
  data_type : Option String := none
  real_conditions : Option CombinedReading := none
  synth_conditions : Option Conditions := none
  hours : Option ℤ := none
  days : Option ℤ := none
  deriving DecidableEq, Repr

/-- The `/api/current` handler `get_current_conditions` (app.py lines
65-106).  `body` models `request.get_json()` restricted to the `city`
key: `none` = no/falsy JSON body, `some none` = a body without `'city'`,
`some (some city)` = a body carrying a city.  `real` is the outcome of
`real_data_fetcher.fetch_combined_data` (`none` covering both a `None`
result and a raised-and-caught exception); the inner `try/except` turns
that into the synthetic fallback. -/
def get_current_conditions (body : Option (Option String))
    (real : Option CombinedReading) (hour : ℕ) (r : RandomDraws) :
    Response :=
  match body with
  | none => { status := 400, success := false,
              error := some ("City parameter is required") }
  | some none => { status := 400, success := false,
                   error := some ("City parameter is required") }
  | some (some city) =>
      match real with
      | some rc =>
          { status := 200, success := true, city := some city,
            data_type := some ("real"), real_conditions := some rc }
      | none =>
          { status := 200, success := true, city := some city,
            data_type := some ("synthetic"),
            synth_conditions :=
              some (generate_current_conditions city hour r) }

/-- Parsed body of a `/api/forecast` request: the optional `city` and
`hours` fields (`hours` modelled post-`int()`; a non-parsable value
raises `ValueError`, which the handler also answers with 400). -/
structure ForecastBody where
  city : Option String
  hours : Option ℤ
  deriving DecidableEq, Repr

/-- The `/api/forecast` handler `get_forecast` (app.py lines 158-218):
400 when the body is falsy or has no `'city'`, 400 when `hours`
(defaulting to 24) is outside `[1, 168]`, else a success response. -/
def get_forecast (body : Option ForecastBody) : Response :=
  match body with
  | none => { status := 400, success := false,
              error := some ("City parameter is required") }
  | some b =>
      match b.city with
      | none => { status := 400, success := false,
                  error := some ("City parameter is required") }
      | some city =>
          let hours := b.hours.getD 24
          if hours < 1 ∨ 168 < hours then
            { status := 400, success := false,
              error := some ("Hours must be between 1 and 168") }
          else
            { status := 200, success := true, city := some city,
              hours := some hours }

/-- Parsed body of a `/api/historical` request: the optional `city` and
`days` fields. -/
structure HistoricalBody where
  city : Option String
  days : Option ℤ
  deriving DecidableEq, Repr

/-- The `/api/historical` handler `get_historical_data` (app.py lines
237-260).  There is no body validation: a missing `'city'` silently
defaults to `'Mumbai'` via `data.get('city', 'Mumbai')`, and an absent
JSON body makes `data.get` raise `AttributeError` on `None`, which the
blanket `except` answers with 500. -/
def get_historical_data (body : Option HistoricalBody) : Response :=
  match body with
  | none => { status := 500, success := false,
              error := some ("AttributeError") }
  | some b =>
      { status := 200, success := true,
        city := some (b.city.getD ("Mumbai")),
        days := some (b.days.getD 7) }

/-- Category chain of `generate_mock_forecast` (app.py lines 404-413). -/
def mockCategory (aqi : ℚ) : String :=
  if aqi ≤ 50 then "Good"
  else if aqi ≤ 100 then "Satisfactory"
  else if aqi ≤ 200 then "Moderate"
  else if aqi ≤ 300 then "Poor"
  else "Very Poor"

/-- Category chain of `generate_historical_data` (app.py lines 464-473). -/
def historicalCategory (aqi : ℚ) : String :=
  if aqi ≤ 50 then "Good"
  else if aqi ≤ 100 then "Satisfactory"
  else if aqi ≤ 200 then "Moderate"
  else if aqi ≤ 300 then "Poor"
  else "Very Poor"


/-- Claim C4: the AQI → category mapping is boundary-exact with
thresholds 50/100/200/300 at every place it is computed
(`get_air_quality_index`, `combine_data_sources`,
`generate_current_conditions`, `generate_mock_forecast`,
`generate_historical_data`): 50 ↦ Good, 51 ↦ Satisfactory,
100 ↦ Satisfactory, 101 ↦ Moderate, 200 ↦ Moderate, 201 ↦ Poor,
300 ↦ Poor, 301 ↦ Very Poor. -/
theorem C4_category_thresholds :
    (forecasterCategory 50 = "Good" ∧ forecasterCategory 51 = "Satisfactory" ∧
     forecasterCategory 100 = "Satisfactory" ∧ forecasterCategory 101 = "Moderate" ∧
     forecasterCategory 200 = "Moderate" ∧ forecasterCategory 201 = "Poor" ∧
     forecasterCategory 300 = "Poor" ∧ forecasterCategory 301 = "Very Poor") ∧
    (fetcherCategory 50 = "Good" ∧ fetcherCategory 51 = "Satisfactory" ∧
     fetcherCategory 100 = "Satisfactory" ∧ fetcherCategory 101 = "Moderate" ∧
     fetcherCategory 200 = "Moderate" ∧ fetcherCategory 201 = "Poor" ∧
     fetcherCategory 300 = "Poor" ∧ fetcherCategory 301 = "Very Poor") ∧
    (appCategory 50 = "Good" ∧ appCategory 51 = "Satisfactory" ∧
     appCategory 100 = "Satisfactory" ∧ appCategory 101 = "Moderate" ∧
     appCategory 200 = "Moderate" ∧ appCategory 201 = "Poor" ∧
     appCategory 300 = "Poor" ∧ appCategory 301 = "Very Poor") ∧
    (mockCategory 50 = "Good" ∧ mockCategory 51 = "Satisfactory" ∧
     mockCategory 100 = "Satisfactory" ∧ mockCategory 101 = "Moderate" ∧
     mockCategory 200 = "Moderate" ∧ mockCategory 201 = "Poor" ∧
     mockCategory 300 = "Poor" ∧ mockCategory 301 = "Very Poor") ∧
    (historicalCategory 50 = "Good" ∧ historicalCategory 51 = "Satisfactory" ∧
     historicalCategory 100 = "Satisfactory" ∧ historicalCategory 101 = "Moderate" ∧
     historicalCategory 200 = "Moderate" ∧ historicalCategory 201 = "Poor" ∧
     historicalCategory 300 = "Poor" ∧ historicalCategory 301 = "Very Poor") := by
  decide

/-- Claim C7: when all three providers are absent, `fetch_combined_data`
returns `None` — no error, no partially built record. -/
theorem C7_all_providers_absent :
    fetch_combined_data none none none = none := rfl

/-- Claim C3 counterexample: the breakpoint-table AQI Calculator of
section 4.1 (`get_air_quality_index`) applied to a reading containing
only PM2.5 = 12.0 returns AQI 20, not 50 (its first PM2.5 bracket is
0-30 ↦ 0-50, so 12 interpolates to 20): the claim is false as stated. -/
theorem C3_cex_pm25_12_gives_20 :
    (get_air_quality_index [(.PM25, 12)]).aqi = 20 ∧ (20 : ℤ) ≠ 50 := by
  constructor
  · norm_num [get_air_quality_index, getAQIState, aqiStep, subOf,
      subIndex, aqi_breakpoints, pyRound]
  · decide

/-- Claim C3 (amended): the PM2.5-only EPA converter
`calculate_aqi_from_pm25` returns exactly 50 at PM2.5 = 12.0 and 0 at
PM2.5 = 0; the breakpoint-table calculator `get_air_quality_index`
returns 20 at PM2.5 = 12.0 and 0 at PM2.5 = 0. -/
theorem C3_amended_boundary_values :
    calculate_aqi_from_pm25 12 = 50 ∧
    calculate_aqi_from_pm25 0 = 0 ∧
    (get_air_quality_index [(.PM25, 12)]).aqi = 20 ∧
    (get_air_quality_index [(.PM25, 0)]).aqi = 0 := by
  refine ⟨by norm_num [calculate_aqi_from_pm25],
          by norm_num [calculate_aqi_from_pm25], ?_, ?_⟩ <;>
    norm_num [get_air_quality_index, getAQIState, aqiStep, subOf,
      subIndex, aqi_breakpoints, pyRound]

/-- Claim C6: when OpenWeather and WAQI both supply a PM2.5 value, the
combined reading carries OpenWeather's value outright (the
higher-priority source for pollutants); WAQI's value is never used and
nothing is averaged. -/
theorem C6_priority_pm25 (ow : OpenWeatherPayload)
    (av : Option AirVisualPayload) (wq : WAQIPayload) (v1 v2 : ℚ)
    (h1 : ow.pm2_5 = some v1) (h2 : wq.pm25 = some v2) :
    (combine_data_sources (some ow) av (some wq)).PM25 = some (some v1) := by
  cases av <;> simp [combine_data_sources, h1, h2]

/-- Concrete instance of claim C6: OpenWeather PM2.5 = 25 beats
WAQI PM2.5 = 99. -/
theorem C6_priority_pm25_witness :
    (combine_data_sources
      (some { pm2_5 := some 25, pm10 := none, no2 := none, so2 := none,
              co := none, o3 := none })
      none
      (some { aqi := 180, pm25 := some 99, pm10 := none })).PM25 =
      some (some 25) :=
  C6_priority_pm25 _ none _ 25 99 rfl rfl

/-- Claim C10: when the OpenWeather payload is present but a pollutant
lookup yields `None`, the combined reading stores `None` under that key,
and a WAQI value for the same pollutant does not fill it in, because the
WAQI fallback tests key presence (`'PM2.5' not in combined`), not value
presence. -/
theorem C10_none_shadows_waqi (ow : OpenWeatherPayload)
    (av : Option AirVisualPayload) (wq : WAQIPayload) (v w : ℚ)
    (h1 : ow.pm2_5 = none) (h2 : ow.pm10 = none)
    (h3 : wq.pm25 = some v) (h4 : wq.pm10 = some w) :
    (combine_data_sources (some ow) av (some wq)).PM25 = some none ∧
    (combine_data_sources (some ow) av (some wq)).PM10 = some none ∧
    (combine_data_sources (some ow) av (some wq)).PM25 ≠ some (some v) ∧
    (combine_data_sources (some ow) av (some wq)).PM10 ≠ some (some w) := by
  cases av <;> simp [combine_data_sources, h1, h2, h3, h4, pm25Truthy]

/-- Concrete instance of claim C10: OpenWeather present without PM2.5 and
PM10, WAQI supplying both — the combined reading still holds `None`. -/
theorem C10_none_shadows_waqi_witness :
    (combine_data_sources
      (some { pm2_5 := none, pm10 := none, no2 := some 14, so2 := none,
              co := none, o3 := none })
      none
      (some { aqi := 95, pm25 := some 61, pm10 := some 88 })).PM25 =
      some none :=
  (C10_none_shadows_waqi _ none _ 61 88 rfl rfl rfl rfl).1

/-- An OpenWeather payload that supplies PM2.5 = 40 (all other pollutant
components 0, as `fetch_openweather_pollution` defaults them). -/
def owPM40 : OpenWeatherPayload :=
  { pm2_5 := some 40, pm10 := some 0, no2 := some 0, so2 := some 0,
    co := some 0, o3 := some 0 }

/-- Claim C5 counterexample: with only an OpenWeather payload carrying
PM2.5 = 40 and no AQI from any source, the reconciler derives
AQI = `calculate_aqi_from_pm25 40` = 223/2 = 111.5 (US EPA table),
while the AQI Calculator of section 4.1 (`get_air_quality_index`)
computes 202/3 ≈ 67.3 (rounded: 67) for PM2.5 = 40.  The two disagree,
so the combined AQI does not equal the section-4.1 value. -/
theorem C5_cex_reconciler_not_section41 :
    (combine_data_sources (some owPM40) none none).AQI = some (223/2) ∧
    (getAQIState [(.PM25, 40)]).1 = 202/3 ∧
    (get_air_quality_index [(.PM25, 40)]).aqi = 67 ∧
    (223/2 : ℚ) ≠ 202/3 ∧
    (223/2 : ℚ) ≠ (67 : ℚ) := by
  refine ⟨?_, ?_, ?_, by norm_num, by norm_num⟩
  · norm_num [combine_data_sources, owPM40, pm25Truthy, pm25Value,
      calculate_aqi_from_pm25]
  · norm_num [getAQIState, aqiStep, subOf, subIndex, aqi_breakpoints]
  · norm_num [get_air_quality_index, getAQIState, aqiStep, subOf,
      subIndex, aqi_breakpoints, pyRound]

/-- Claim C5 (amended): if the only available provider data is an
OpenWeather payload with PM2.5 = 40 and no provider supplies an AQI
field, the combined reading's AQI is `calculate_aqi_from_pm25 40` — the
reconciler's own EPA-based PM2.5 converter, not the section-4.1
breakpoint-table calculator. -/
theorem C5_amended_derived_aqi (ow : OpenWeatherPayload)
    (h : ow.pm2_5 = some 40) :
    (combine_data_sources (some ow) none none).AQI =
      some (calculate_aqi_from_pm25 40) := by
  simp [combine_data_sources, h, pm25Truthy, pm25Value]

/-- Concrete instance of claim C5 (amended) at the payload `owPM40`. -/
theorem C5_amended_derived_aqi_witness :
    (combine_data_sources (some owPM40) none none).AQI =
      some (calculate_aqi_from_pm25 40) :=
  C5_amended_derived_aqi owPM40 rfl

/-- Claim C9 counterexample: a `/api/historical` request whose JSON body
lacks the `city` field is answered 200 with `success: true` and the
silently defaulted city `Mumbai` — not the claimed 400. -/
theorem C9_cex_historical_silent_default :
    (get_historical_data (some { city := none, days := none })).status = 200 ∧
    (get_historical_data (some { city := none, days := none })).success = true ∧
    (get_historical_data (some { city := none, days := none })).city =
      some ("Mumbai") ∧
    (get_historical_data (some { city := none, days := none })).status ≠ 400 := by
  refine ⟨rfl, rfl, rfl, by decide⟩

/-- Claim C9 (amended): `/api/current` and `/api/forecast` answer a
missing body or missing `city` field with HTTP 400 and `success: false`;
`/api/historical` does not — it silently defaults the city to `Mumbai`
with a 200 success response, and answers an absent JSON body with 500
(the `data.get` call raises on `None` and the blanket `except` maps it
to 500). -/
theorem C9_amended_param_validation :
    (∀ real hour r, (get_current_conditions none real hour r).status = 400 ∧
      (get_current_conditions none real hour r).success = false) ∧
    (∀ real hour r, (get_current_conditions (some none) real hour r).status = 400 ∧
      (get_current_conditions (some none) real hour r).success = false) ∧
    ((get_forecast none).status = 400 ∧ (get_forecast none).success = false) ∧
    (∀ hs, (get_forecast (some { city := none, hours := hs })).status = 400 ∧
      (get_forecast (some { city := none, hours := hs })).success = false) ∧
    (∀ ds, (get_historical_data (some { city := none, days := ds })).status = 200 ∧
      (get_historical_data (some { city := none, days := ds })).success = true ∧
      (get_historical_data (some { city := none, days := ds })).city =
        some ("Mumbai")) ∧
    ((get_historical_data none).status = 500 ∧
      (get_historical_data none).success = false) := by
  refine ⟨fun real hour r => ⟨rfl, rfl⟩, fun real hour r => ⟨rfl, rfl⟩,
    ⟨rfl, rfl⟩, fun hs => ⟨rfl, rfl⟩, fun ds => ⟨rfl, rfl, rfl⟩, rfl, rfl⟩

/-- Claim C8: a current-conditions request for a city outside the
supported set falls back to the synthetic generator's default baseline
(`base_pollution.get(city, 75)` = 75) and is answered successfully:
the handler returns `success: true` with synthetic conditions whose
PM2.5 is computed from base 75. -/
theorem C8_unsupported_city_default (city : String) (hour : ℕ)
    (r : RandomDraws) (h : city ∉ supportedCities) :
    base_pollution city = none ∧
    (get_current_conditions (some (some city)) none hour r).success = true ∧
    (get_current_conditions (some (some city)) none hour r).status = 200 ∧
    (get_current_conditions (some (some city)) none hour r).synth_conditions =
      some (generate_current_conditions city hour r) ∧
    (generate_current_conditions city hour r).PM25 =
      round1 (max 10 (75 * rush_hour_effect hour + r.r_pm25)) := by
  simp only [supportedCities, List.mem_cons, List.not_mem_nil, or_false,
    not_or] at h
  obtain ⟨h1, h2, h3, h4, h5, h6⟩ := h
  have hb : base_pollution city = none := by
    simp [base_pollution, h1, h2, h3, h4, h5, h6]
  refine ⟨hb, rfl, rfl, rfl, ?_⟩
  simp [generate_current_conditions, hb]

/-- A fixed tuple of random draws used to instantiate claim C8. -/
def drawsZero : RandomDraws :=
  { r_pm25 := 0, r_pm10_mul := 0, r_pm10_add := 0, r_no2 := 0, r_so2 := 0,
    r_co := 0, r_o3 := 0, r_temp := 0, r_hum := 0, r_wind := 0, r_press := 0 }

/-- Concrete instance of claim C8 at the unsupported city `Pune`. -/
theorem C8_unsupported_city_default_witness :
    ("Pune" ∉ supportedCities) ∧
    (base_pollution ("Pune") = none ∧
     (get_current_conditions (some (some ("Pune"))) none 8 drawsZero).success = true ∧
     (get_current_conditions (some (some ("Pune"))) none 8 drawsZero).status = 200 ∧
     (get_current_conditions (some (some ("Pune"))) none 8 drawsZero).synth_conditions =
       some (generate_current_conditions ("Pune") 8 drawsZero) ∧
     (generate_current_conditions ("Pune") 8 drawsZero).PM25 =
       round1 (max 10 (75 * rush_hour_effect 8 + drawsZero.r_pm25))) :=
  ⟨by decide, C8_unsupported_city_default ("Pune") 8 drawsZero (by decide)⟩

/-- The code's arrangement of the interpolation,
`(aqi_hi - aqi_lo) / (bp_hi - bp_lo) * (v - bp_lo) + aqi_lo`, agrees
bracket-for-bracket with the spec's arrangement
`aqi_lo + (aqi_hi - aqi_lo) * (v - bp_lo) / (bp_hi - bp_lo)`. -/
theorem subIndex_eq_specSubIndex (t : List (ℚ × ℚ × ℚ × ℚ)) (v : ℚ) :
    subIndex t v = specSubIndex t v := by
  induction t with
  | nil => rfl
  | cons b rest ih =>
      obtain ⟨lo, hi, alo, ahi⟩ := b
      by_cases h1 : lo ≤ v
      · by_cases h2 : v ≤ hi
        · simp only [subIndex, specSubIndex, if_pos h1, if_pos h2,
            if_pos (And.intro h1 h2)]
          rw [div_mul_eq_mul_div, add_comm]
        · simp only [subIndex, specSubIndex, if_pos h1, if_neg h2,
            if_neg (fun hc : lo ≤ v ∧ v ≤ hi => h2 hc.2)]
          exact ih
      · simp only [subIndex, specSubIndex, if_neg h1,
          if_neg (fun hc : lo ≤ v ∧ v ≤ hi => h1 hc.1)]
        exact ih

/-- Pointwise version of `subIndex_eq_specSubIndex`. -/
theorem subOf_eq_specSubOf : subOf = specSubOf :=
  funext fun pl => subIndex_eq_specSubIndex (aqi_breakpoints pl.1) pl.2

/-- The effect of one loop iteration on `max_aqi` alone: keep the running
maximum when the pollutant has no bracket, else take the max with its
sub-index. -/
def maxStep (m : ℚ) (pl : Pollutant × ℚ) : ℚ :=
  match subOf pl with
  | none => m
  | some a => max m a

/-- One `maxStep` never decreases the running maximum. -/
theorem le_maxStep (m : ℚ) (pl : Pollutant × ℚ) : m ≤ maxStep m pl := by
  cases h : subOf pl <;> simp [maxStep, h]

/-- Folding `maxStep` never decreases the starting value. -/
theorem le_foldl_maxStep (l : List (Pollutant × ℚ)) :
    ∀ m : ℚ, m ≤ l.foldl maxStep m := by
  induction l with
  | nil => intro m; exact le_refl m
  | cons pl rest ih =>
      intro m
      exact le_trans (le_maxStep m pl) (ih (maxStep m pl))

/-- Folding `maxStep` is folding `max` over the defined sub-indices. -/
theorem foldl_maxStep_eq (l : List (Pollutant × ℚ)) :
    ∀ m : ℚ, l.foldl maxStep m = (l.filterMap subOf).foldl max m := by
  induction l with
  | nil => intro m; rfl
  | cons pl rest ih =>
      intro m
      cases h : subOf pl with
      | none =>
          simp only [List.foldl_cons, List.filterMap_cons, h, maxStep]
          exact ih m
      | some a =>
          simp only [List.foldl_cons, List.filterMap_cons, h, maxStep]
          exact ih (max m a)

/-- Invariant of the outer loop of `get_air_quality_index`: starting from
state `(m, d)`, the final `max_aqi` is the `maxStep` fold, and the final
dominant pollutant is the first list entry whose sub-index equals that
fold — provided the fold strictly exceeded `m` — and the initial `d`
otherwise. -/
theorem aqiFold_spec (l : List (Pollutant × ℚ)) :
    ∀ (m : ℚ) (d : Option Pollutant),
      (l.foldl aqiStep (m, d)).1 = l.foldl maxStep m ∧
      (l.foldl aqiStep (m, d)).2 =
        (if m < l.foldl maxStep m then
          (l.find? fun pl =>
            decide (subOf pl = some (l.foldl maxStep m))).map Prod.fst
        else d) := by
  induction l with
  | nil =>
      intro m d
      refine ⟨rfl, ?_⟩
      simp
  | cons pl rest ih =>
      intro m d
      cases h : subOf pl with
      | none =>
          have hstep : aqiStep (m, d) pl = (m, d) := by simp [aqiStep, h]
          have hmax : maxStep m pl = m := by simp [maxStep, h]
          simp only [List.foldl_cons, hstep, hmax]
          obtain ⟨ih1, ih2⟩ := ih m d
          refine ⟨ih1, ?_⟩
          rw [ih2]
          by_cases hc : m < rest.foldl maxStep m
          · rw [if_pos hc, if_pos hc, List.find?_cons_of_neg]
            simp [h]
          · rw [if_neg hc, if_neg hc]
      | some a =>
          by_cases ham : m < a
          · have hstep : aqiStep (m, d) pl = (a, some pl.1) := by
              simp [aqiStep, h, ham]
            have hmax : maxStep m pl = a := by
              simp [maxStep, h, max_eq_right ham.le]
            simp only [List.foldl_cons, hstep, hmax]
            obtain ⟨ih1, ih2⟩ := ih a (some pl.1)
            refine ⟨ih1, ?_⟩
            have haM : a ≤ rest.foldl maxStep a := le_foldl_maxStep rest a
            have hcond : m < rest.foldl maxStep a := lt_of_lt_of_le ham haM
            rw [ih2, if_pos hcond]
            by_cases hstrict : a < rest.foldl maxStep a
            · rw [if_pos hstrict, List.find?_cons_of_neg]
              simp only [h, decide_eq_true_eq, Option.some.injEq]
              exact ne_of_lt hstrict
            · have heq : rest.foldl maxStep a = a :=
                le_antisymm (not_lt.mp hstrict) haM
              rw [if_neg hstrict, List.find?_cons_of_pos]
              · rfl
              · simp [h, heq]
          · have hstep : aqiStep (m, d) pl = (m, d) := by
              simp [aqiStep, h, ham]
            have hmax : maxStep m pl = m := by
              simp [maxStep, h, max_eq_left (not_lt.mp ham)]
            simp only [List.foldl_cons, hstep, hmax]
            obtain ⟨ih1, ih2⟩ := ih m d
            refine ⟨ih1, ?_⟩
            rw [ih2]
            by_cases hc : m < rest.foldl maxStep m
            · rw [if_pos hc, if_pos hc, List.find?_cons_of_neg]
              simp only [h, decide_eq_true_eq, Option.some.injEq]
              exact ne_of_lt (lt_of_le_of_lt (not_lt.mp ham) hc)
            · rw [if_neg hc, if_neg hc]

/-- Claim C1 counterexample: for the reading `{PM2.5: 0}`, PM2.5 has the
sub-index 0, which is the maximum sub-index across the pollutants, yet
`get_air_quality_index` reports `dominant_pollutant = None` rather than
PM2.5 (the code updates the dominant pollutant only on a strict increase
above the initial `max_aqi = 0`), so "the dominant pollutant is the
first pollutant attaining that maximum" fails as stated. -/
theorem C1_cex_dominant_none_at_zero :
    subOf (.PM25, 0) = some 0 ∧
    maxSubIndex [(.PM25, 0)] = 0 ∧
    (get_air_quality_index [(.PM25, 0)]).dominant_pollutant = none ∧
    (get_air_quality_index [(.PM25, 0)]).dominant_pollutant ≠ some .PM25 := by
  refine ⟨?_, ?_, ?_, ?_⟩
  · norm_num [subOf, subIndex, aqi_breakpoints]
  · norm_num [maxSubIndex, specSubOf, specSubIndex, aqi_breakpoints,
      List.filterMap_cons, List.filterMap_nil]
  · norm_num [get_air_quality_index, getAQIState, aqiStep, subOf,
      subIndex, aqi_breakpoints]
  · have hd : (get_air_quality_index [(.PM25, 0)]).dominant_pollutant = none := by
      norm_num [get_air_quality_index, getAQIState, aqiStep, subOf,
        subIndex, aqi_breakpoints]
    rw [hd]
    exact fun hcon => Option.noConfusion hcon

/-- Claim C1 (amended): `get_air_quality_index` computes, for each
pollutant in a bracket of its table, the sub-index
`aqi_lo + (aqi_hi - aqi_lo) * (value - bp_lo) / (bp_hi - bp_lo)` of the
first containing bracket (`specSubOf`); the `max_aqi` it aggregates is
the maximum of these sub-indices (`maxSubIndex`), the reported `aqi`
field is that maximum rounded to the nearest integer, and the dominant
pollutant is the first pollutant attaining the maximum provided the
maximum is strictly positive, `None` otherwise (`firstMaxPollutant`): a
later pollutant displaces the dominant only with a strictly greater
sub-index. -/
theorem C1_amended_max_and_first_dominant (levels : List (Pollutant × ℚ)) :
    (getAQIState levels).1 = maxSubIndex levels ∧
    (get_air_quality_index levels).aqi = pyRound (maxSubIndex levels) ∧
    (get_air_quality_index levels).dominant_pollutant =
      firstMaxPollutant levels := by
  have hM : (getAQIState levels).1 = maxSubIndex levels := by
    rw [getAQIState, (aqiFold_spec levels 0 none).1, foldl_maxStep_eq,
      maxSubIndex, subOf_eq_specSubOf]
  have hfold : levels.foldl maxStep 0 = maxSubIndex levels := by
    rw [foldl_maxStep_eq, maxSubIndex, subOf_eq_specSubOf]
  have hD : (getAQIState levels).2 = firstMaxPollutant levels := by
    rw [getAQIState, (aqiFold_spec levels 0 none).2, firstMaxPollutant,
      hfold, subOf_eq_specSubOf]
  exact ⟨hM, by rw [show (get_air_quality_index levels).aqi =
      pyRound (getAQIState levels).1 from rfl, hM],
    by rw [show (get_air_quality_index levels).dominant_pollutant =
      (getAQIState levels).2 from rfl, hD]⟩

/-- A bracket table is a well-formed chain above start `lo0` and AQI
floor `alo0` when each bracket starts exactly where the previous one
ended (`lo = lo0`), is non-degenerate (`lo < hi`), and its AQI range
starts at or above the previous range's end (`alo0 ≤ alo ≤ ahi`).  All
three tables of `aqi_breakpoints` satisfy `chainWF 0 0`. -/
def chainWF : ℚ → ℚ → List (ℚ × ℚ × ℚ × ℚ) → Bool
  | _, _, [] => true
  | lo0, alo0, (lo, hi, alo, ahi) :: rest =>
      decide (lo = lo0) && decide (lo < hi) && decide (alo0 ≤ alo) &&
        decide (alo ≤ ahi) && chainWF hi ahi rest

/-- The concentration where a bracket chain ends (`e` for the empty
chain). -/
def tableEnd : ℚ → List (ℚ × ℚ × ℚ × ℚ) → ℚ
  | e, [] => e
  | _, (_, hi, _, _) :: rest => tableEnd hi rest

/-- The largest concentration covered by the forecaster's breakpoint
table for each pollutant (250 for PM2.5, 430 for PM10, 400 for NO2; 0
for pollutants the table does not list). -/
def tableTop (p : Pollutant) : ℚ :=
  tableEnd 0 (aqi_breakpoints p)

/-- In a well-formed chain, every produced sub-index is at least the
chain's AQI floor. -/
theorem spec_lb (t : List (ℚ × ℚ × ℚ × ℚ)) :
    ∀ lo0 alo0 v a : ℚ, chainWF lo0 alo0 t = true →
      specSubIndex t v = some a → alo0 ≤ a := by
  induction t with
  | nil =>
      intro lo0 alo0 v a _ hs
      exact absurd hs (by simp [specSubIndex])
  | cons b rest ih =>
      intro lo0 alo0 v a hwf hs
      obtain ⟨lo, hi, alo, ahi⟩ := b
      simp only [chainWF, Bool.and_eq_true, decide_eq_true_eq] at hwf
      obtain ⟨⟨⟨⟨hlo, hlh⟩, h0a⟩, haa⟩, hrest⟩ := hwf
      by_cases hc : lo ≤ v ∧ v ≤ hi
      · simp only [specSubIndex, if_pos hc, Option.some.injEq] at hs
        have hnn : 0 ≤ (ahi - alo) * (v - lo) / (hi - lo) :=
          div_nonneg (mul_nonneg (by linarith) (by linarith [hc.1]))
            (by linarith)
        linarith [hs]
      · simp only [specSubIndex, if_neg hc] at hs
        exact le_trans (le_trans h0a haa) (ih hi ahi v a hrest hs)

/-- A concentration strictly below a well-formed chain's start matches no
bracket. -/
theorem spec_below (t : List (ℚ × ℚ × ℚ × ℚ)) :
    ∀ lo0 alo0 v : ℚ, chainWF lo0 alo0 t = true → v < lo0 →
      specSubIndex t v = none := by
  induction t with
  | nil => intro lo0 alo0 v _ _; rfl
  | cons b rest ih =>
      intro lo0 alo0 v hwf hv
      obtain ⟨lo, hi, alo, ahi⟩ := b
      simp only [chainWF, Bool.and_eq_true, decide_eq_true_eq] at hwf
      obtain ⟨⟨⟨⟨hlo, hlh⟩, h0a⟩, haa⟩, hrest⟩ := hwf
      have hnomatch : ¬(lo ≤ v ∧ v ≤ hi) := by
        intro hc
        rw [hlo] at hc
        exact absurd hc.1 (not_le.mpr hv)
      simp only [specSubIndex, if_neg hnomatch]
      exact ih hi ahi v hrest (by linarith [hlo.ge, hlo.le, hlh])

/-- Core monotonicity step: in a well-formed chain with a non-negative
AQI floor, if `v2` matches some bracket with sub-index `a2`, then any
`v1 ≤ v2` has sub-index (0 when absent) at most `a2`. -/
theorem spec_val_le (t : List (ℚ × ℚ × ℚ × ℚ)) :
    ∀ lo0 alo0 v1 v2 a2 : ℚ, chainWF lo0 alo0 t = true → 0 ≤ alo0 →
      v1 ≤ v2 → specSubIndex t v2 = some a2 →
      (specSubIndex t v1).getD 0 ≤ a2 := by
  induction t with
  | nil =>
      intro lo0 alo0 v1 v2 a2 _ _ _ hs
      exact absurd hs (by simp [specSubIndex])
  | cons b rest ih =>
      intro lo0 alo0 v1 v2 a2 hwf h00 h12 hs
      obtain ⟨lo, hi, alo, ahi⟩ := b
      have hparts := hwf
      simp only [chainWF, Bool.and_eq_true, decide_eq_true_eq] at hparts
      obtain ⟨⟨⟨⟨hlo, hlh⟩, h0a⟩, haa⟩, hrest⟩ := hparts
      have hinv : (0:ℚ) ≤ (hi - lo)⁻¹ := inv_nonneg.mpr (by linarith)
      by_cases hc2 : lo ≤ v2 ∧ v2 ≤ hi
      · have ha2 : alo + (ahi - alo) * (v2 - lo) / (hi - lo) = a2 := by
          have := hs
          simp only [specSubIndex, if_pos hc2, Option.some.injEq] at this
          exact this
        by_cases hc1 : lo ≤ v1 ∧ v1 ≤ hi
        · simp only [specSubIndex, if_pos hc1, Option.getD_some]
          have hmono : (ahi - alo) * (v1 - lo) / (hi - lo) ≤
              (ahi - alo) * (v2 - lo) / (hi - lo) := by
            rw [div_eq_mul_inv, div_eq_mul_inv]
            exact mul_le_mul_of_nonneg_right
              (mul_le_mul_of_nonneg_left (by linarith) (by linarith)) hinv
          linarith
        · have hv1lo : v1 < lo := by
            by_contra hcon
            push_neg at hcon
            exact hc1 ⟨hcon, le_trans h12 hc2.2⟩
          have hnone : specSubIndex ((lo, hi, alo, ahi) :: rest) v1 = none :=
            spec_below _ lo0 alo0 v1 hwf (by rw [← hlo]; exact hv1lo)
          rw [hnone]
          have := spec_lb ((lo, hi, alo, ahi) :: rest) lo0 alo0 v2 a2 hwf hs
          simp only [Option.getD_none]
          linarith
      · have hs' : specSubIndex rest v2 = some a2 := by
          have := hs
          simp only [specSubIndex, if_neg hc2] at this
          exact this
        by_cases hc1 : lo ≤ v1 ∧ v1 ≤ hi
        · simp only [specSubIndex, if_pos hc1, Option.getD_some]
          have hub : (ahi - alo) * (v1 - lo) / (hi - lo) ≤ ahi - alo := by
            rw [div_eq_mul_inv]
            have hle : (ahi - alo) * (v1 - lo) ≤ (ahi - alo) * (hi - lo) :=
              mul_le_mul_of_nonneg_left (by linarith [hc1.2]) (by linarith)
            calc (ahi - alo) * (v1 - lo) * (hi - lo)⁻¹
                ≤ (ahi - alo) * (hi - lo) * (hi - lo)⁻¹ :=
                  mul_le_mul_of_nonneg_right hle hinv
              _ = ahi - alo := by
                  rw [mul_assoc, mul_inv_cancel₀ (by linarith : hi - lo ≠ 0),
                    mul_one]
          have hlb2 : ahi ≤ a2 := spec_lb rest hi ahi v2 a2 hrest hs'
          linarith
        · simp only [specSubIndex, if_neg hc1]
          exact ih hi ahi v1 v2 a2 hrest (by linarith) h12 hs'

/-- Coverage: in a well-formed chain, any concentration between the
chain start and the chain end matches some bracket (or the chain is
empty). -/
theorem spec_cover (t : List (ℚ × ℚ × ℚ × ℚ)) :
    ∀ lo0 alo0 v : ℚ, chainWF lo0 alo0 t = true → lo0 ≤ v →
      v ≤ tableEnd lo0 t → (specSubIndex t v).isSome = true ∨ t = [] := by
  induction t with
  | nil => intro lo0 alo0 v _ _ _; exact Or.inr rfl
  | cons b rest ih =>
      intro lo0 alo0 v hwf hv0 hvend
      obtain ⟨lo, hi, alo, ahi⟩ := b
      simp only [chainWF, Bool.and_eq_true, decide_eq_true_eq] at hwf
      obtain ⟨⟨⟨⟨hlo, hlh⟩, h0a⟩, haa⟩, hrest⟩ := hwf
      by_cases hvhi : v ≤ hi
      · left
        simp only [specSubIndex, if_pos (And.intro (hlo ▸ hv0) hvhi),
          Option.isSome_some]
      · have hvend' : v ≤ tableEnd hi rest := hvend
        rcases ih hi ahi v hrest (le_of_lt (not_le.mp hvhi)) hvend' with
          hsome | hempty
        · left
          simp only [specSubIndex,
            if_neg (fun hc : lo ≤ v ∧ v ≤ hi => hvhi hc.2)]
          exact hsome
        · subst hempty
          exact absurd hvend' (by simpa [tableEnd] using not_le.mp hvhi)

/-- Monotonicity of one pollutant's bracket sub-index over a well-formed
table: transferred to the code's `subIndex`. -/
theorem subVal_mono_table (t : List (ℚ × ℚ × ℚ × ℚ)) (v1 v2 : ℚ)
    (hwf : chainWF 0 0 t = true) (hne : t ≠ []) (h12 : v1 ≤ v2)
    (h0 : 0 ≤ v2) (htop : v2 ≤ tableEnd 0 t) :
    (subIndex t v1).getD 0 ≤ (subIndex t v2).getD 0 := by
  rcases spec_cover t 0 0 v2 hwf h0 htop with hsome | hempty
  · obtain ⟨a2, ha2⟩ := Option.isSome_iff_exists.mp hsome
    rw [subIndex_eq_specSubIndex, subIndex_eq_specSubIndex, ha2,
      Option.getD_some]
    exact spec_val_le t 0 0 v1 v2 a2 hwf le_rfl h12 ha2
  · exact absurd hempty hne

/-- Within the covered range of the table, a pollutant's sub-index (with
`none` read as 0) is monotone in the concentration. -/
theorem subVal_mono (p : Pollutant) (v1 v2 : ℚ) (h12 : v1 ≤ v2)
    (h0 : 0 ≤ v2) (htop : v2 ≤ tableTop p) :
    (subIndex (aqi_breakpoints p) v1).getD 0 ≤
      (subIndex (aqi_breakpoints p) v2).getD 0 := by
  cases p
  case PM25 => exact subVal_mono_table _ v1 v2 (by decide) (by decide) h12 h0 htop
  case PM10 => exact subVal_mono_table _ v1 v2 (by decide) (by decide) h12 h0 htop
  case NO2 => exact subVal_mono_table _ v1 v2 (by decide) (by decide) h12 h0 htop
  case SO2 => simp [aqi_breakpoints, subIndex]
  case CO => simp [aqi_breakpoints, subIndex]
  case O3 => simp [aqi_breakpoints, subIndex]

/-- `calculate_aqi_from_pm25` is monotone non-decreasing on all of ℚ:
each EPA branch has non-negative slope and branch values increase across
the cut points 12, 35.4, 55.4, 150.4, 250.4. -/
theorem calculate_aqi_from_pm25_mono (x y : ℚ) (h : x ≤ y) :
    calculate_aqi_from_pm25 x ≤ calculate_aqi_from_pm25 y := by
  unfold calculate_aqi_from_pm25
  split_ifs <;> ring_nf <;> linarith

/-- For a non-negative running maximum, `maxStep` is taking the max with
the sub-index read as 0 when absent. -/
theorem maxStep_getD (m : ℚ) (pl : Pollutant × ℚ) (hm : 0 ≤ m) :
    maxStep m pl = max m ((subOf pl).getD 0) := by
  cases h : subOf pl
  · simp [maxStep, h, max_eq_left hm]
  · simp [maxStep, h]

/-- Folding `maxStep` is monotone in the starting value. -/
theorem foldl_maxStep_mono (l : List (Pollutant × ℚ)) :
    ∀ m1 m2 : ℚ, m1 ≤ m2 → l.foldl maxStep m1 ≤ l.foldl maxStep m2 := by
  induction l with
  | nil => intro _ _ h; exact h
  | cons pl rest ih =>
      intro m1 m2 h
      apply ih
      cases hp : subOf pl
      · simpa [maxStep, hp] using h
      · simp only [maxStep, hp]
        exact max_le_max h le_rfl

/-- `pyRound` never rounds below the floor. -/
theorem le_pyRound (q : ℚ) : ⌊q⌋ ≤ pyRound q := by
  unfold pyRound
  split_ifs <;> omega

/-- `pyRound` never rounds above the floor plus one. -/
theorem pyRound_le (q : ℚ) : pyRound q ≤ ⌊q⌋ + 1 := by
  unfold pyRound
  split_ifs <;> omega

/-- Python rounding is monotone. -/
theorem pyRound_mono {q1 q2 : ℚ} (h : q1 ≤ q2) : pyRound q1 ≤ pyRound q2 := by
  rcases lt_or_eq_of_le (Int.floor_mono h) with hlt | heq
  · calc pyRound q1 ≤ ⌊q1⌋ + 1 := pyRound_le q1
      _ ≤ ⌊q2⌋ := by omega
      _ ≤ pyRound q2 := le_pyRound q2
  · unfold pyRound
    rw [← heq]
    split_ifs <;> first | omega | (exfalso; linarith)

/-- Claim C2 counterexample: the AQI of `get_air_quality_index` is not
monotone over all concentrations: PM2.5 = 250 (top of the table) yields
AQI 400, but PM2.5 = 251 falls outside every bracket, contributes no
sub-index, and yields AQI 0. -/
theorem C2_cex_non_monotone_past_table :
    (250:ℚ) ≤ 251 ∧
    (get_air_quality_index [(.PM25, 250)]).aqi = 400 ∧
    (get_air_quality_index [(.PM25, 251)]).aqi = 0 ∧
    ¬((get_air_quality_index [(.PM25, 250)]).aqi ≤
      (get_air_quality_index [(.PM25, 251)]).aqi) := by
  have h1 : (get_air_quality_index [(.PM25, 250)]).aqi = 400 := by
    norm_num [get_air_quality_index, getAQIState, aqiStep, subOf,
      subIndex, aqi_breakpoints, pyRound]
  have h2 : (get_air_quality_index [(.PM25, 251)]).aqi = 0 := by
    norm_num [get_air_quality_index, getAQIState, aqiStep, subOf,
      subIndex, aqi_breakpoints, pyRound]
  refine ⟨by norm_num, h1, h2, ?_⟩
  rw [h1, h2]
  decide

/-- Claim C2 (amended): `calculate_aqi_from_pm25` is monotone
non-decreasing for every pair of concentrations; the breakpoint-table
calculator `get_air_quality_index` is monotone non-decreasing in any one
pollutant's concentration (all other entries equal) provided the larger
concentration still lies within the table's covered range
`[0, tableTop]` — beyond the top bracket the sub-index disappears and
monotonicity fails (see the counterexample). -/
theorem C2_amended_monotonicity :
    (∀ x y : ℚ, x ≤ y → calculate_aqi_from_pm25 x ≤ calculate_aqi_from_pm25 y) ∧
    (∀ (p : Pollutant) (v1 v2 : ℚ) (pre post : List (Pollutant × ℚ)),
      v1 ≤ v2 → 0 ≤ v2 → v2 ≤ tableTop p →
      (getAQIState (pre ++ (p, v1) :: post)).1 ≤
        (getAQIState (pre ++ (p, v2) :: post)).1 ∧
      (get_air_quality_index (pre ++ (p, v1) :: post)).aqi ≤
        (get_air_quality_index (pre ++ (p, v2) :: post)).aqi) := by
  constructor
  · exact calculate_aqi_from_pm25_mono
  · intro p v1 v2 pre post h12 h0 htop
    have hfst : ∀ v : ℚ, (getAQIState (pre ++ (p, v) :: post)).1 =
        (pre ++ (p, v) :: post).foldl maxStep 0 :=
      fun v => (aqiFold_spec (pre ++ (p, v) :: post) 0 none).1
    have key : (pre ++ (p, v1) :: post).foldl maxStep 0 ≤
        (pre ++ (p, v2) :: post).foldl maxStep 0 := by
      rw [List.foldl_append, List.foldl_append, List.foldl_cons,
        List.foldl_cons]
      apply foldl_maxStep_mono
      have hM : 0 ≤ pre.foldl maxStep 0 := le_foldl_maxStep pre 0
      rw [maxStep_getD _ _ hM, maxStep_getD _ _ hM]
      exact max_le_max le_rfl (subVal_mono p v1 v2 h12 h0 htop)
    have hstate : (getAQIState (pre ++ (p, v1) :: post)).1 ≤
        (getAQIState (pre ++ (p, v2) :: post)).1 := by
      rw [hfst v1, hfst v2]
      exact key
    exact ⟨hstate, pyRound_mono hstate⟩

/-- Concrete instance of claim C2 (amended): PM2.5 = 5 vs 20 through the
EPA converter, and PM2.5 = 10 vs 20 through the table calculator. -/
theorem C2_amended_monotonicity_witness :
    (calculate_aqi_from_pm25 5 ≤ calculate_aqi_from_pm25 20) ∧
    ((get_air_quality_index [(.PM25, 10)]).aqi ≤
      (get_air_quality_index [(.PM25, 20)]).aqi) := by
  constructor
  · exact C2_amended_monotonicity.1 5 20 (by norm_num)
  · exact (C2_amended_monotonicity.2 .PM25 10 20 [] [] (by norm_num)
      (by norm_num) (by norm_num [tableTop, tableEnd, aqi_breakpoints])).2
